import Mathlib

/-!
# Verification of the Gitpod `Authenticator` (server auth orchestrator)

Shallow embedding of `Authenticator` from
`src/components/public-api/java/src/main/java/io/gitpod/publicapi/v1/TokenServiceClient.kt`
(the TypeScript `Authenticator` class contained in that file): the login gate
(`authenticate`), the authorize gate (`authorize`), deauthorization
(`deauthorize`), setup-mode detection (`isInSetupMode`), scope merging
(`mergeScopes` and the inline scope computation of `authorize`), and the
JWT key resolution callback (`secretOrKeyProvider`).

External collaborators (host context provider, team DB, token provider,
user service) are modelled as pure fields of an environment record; HTTP
responses are modelled as inductive outcome values carrying the redirect
message text (the `getSorryUrl` wrapper is abstracted to the message it
carries).
-/

namespace Gitpod

/-- JS truthiness of an optional string query parameter:
`undefined` and the empty string are falsy. -/
def jsTruthy : Option String → Bool
  | none => false
  | some s => s ≠ ""

/-- JS `a || b` for an optional string: falls back when absent or empty. -/
def jsOr (a : Option String) (b : String) : String :=
  match a with
  | none => b
  | some s => if s = "" then b else s

/-- `User.is(user)`-validated principal: we only need the id. -/
structure User where
  id : String
deriving DecidableEq, Repr

/-- `TeamMembership` as used by the policy checks: only the role matters. -/
structure TeamMembership where
  role : String
deriving DecidableEq, Repr

/-- One configured auth provider: the union of the fields of
`authProvider.info` (`verified`, `organizationId`, `ownerId`,
`requirements.default`, `host`) and `authProvider.params` (`builtin`, `host`)
consumed by the Authenticator, plus `authProviderId`. -/
structure AuthProvider where
  host : String
  verified : Bool
  organizationId : Option String
  ownerId : Option String
  /-- `info.requirements?.default`; `none` models absent `requirements`. -/
  requirements : Option (List String)
  builtin : Bool
  authProviderId : String
deriving DecidableEq, Repr

/-- The `AuthFlow` record attached to the session
(`AuthFlow.attach(session, {host, returnTo[, overrideScopes]})`).
`overrideScopes` is `none` for the login flow, which does not set it. -/
structure AuthFlow where
  host : String
  returnTo : String
  overrideScopes : Option Bool
deriving DecidableEq, Repr

/-- The injected collaborators and configuration, modelled as pure data:
provider registry, config flags, and the external store lookups. -/
structure Env where
  providers : List AuthProvider
  dashboardUrl : String
  disableDynamicAuthProviderLogin : Bool
  userCount : Nat
  /-- `teamDb.findTeamMembership(userId, orgId)` -/
  findTeamMembership : String → String → Option TeamMembership
  /-- `tokenProvider.getTokenForHost(user, host).scopes`; `none` models the
  throwing / no-token case that `getCurrentScopes` catches. -/
  getTokenScopes : String → String → Option (List String)
  /-- `userService.deauthorize(user, authProviderId)`; `Except.error` carries
  the thrown error's `message` ("" models an error without a message). -/
  deauthorizeCall : String → String → Except String Unit

/-- `hostContextProvider.get(host)?.authProvider`
(`getAuthProviderForHost`). -/
def getAuthProviderForHost (env : Env) (host : String) : Option AuthProvider :=
  env.providers.find? (fun p => p.host == host)

/-! ## Scope machinery (`mergeScopes` and scope parsing) -/

/-- `Set.add`: JS `Set` insertion keeps first occurrences in insertion
order. -/
def jsSetAdd (l : List String) (s : String) : List String :=
  if s ∈ l then l else l ++ [s]

/-- `Array.from(new Set(l))`: insertion-ordered deduplication. -/
def jsSetList (l : List String) : List String :=
  l.foldl jsSetAdd []

/-- Boolean lexicographic comparison of character lists, by code point;
this models the JS default string comparator used by `Array.sort()`
(for the ASCII scope names at hand, code-unit and code-point order
coincide). -/
def charListLeb : List Char → List Char → Bool
  | [], _ => true
  | _ :: _, [] => false
  | a :: as, b :: bs =>
    if a < b then true else if b < a then false else charListLeb as bs

/-- The sort order used by `Array.from(set).sort()`. -/
def scopeLe (a b : String) : Prop := charListLeb a.data b.data = true

instance : DecidableRel scopeLe := fun a b =>
  inferInstanceAs (Decidable (charListLeb a.data b.data = true))

/-- `Array.from(set).sort()`: the sorted, duplicate-free sequence of the
elements of `l`. -/
def sortedSet (l : List String) : List String :=
  List.insertionSort scopeLe (jsSetList l)

/-- `mergeScopes(a, b)`: `new Set(a)`, add all of `b`, sort. -/
def mergeScopes (a b : List String) : List String :=
  sortedSet (a ++ b)

/-- JS `str.split(",")` over the character list: splitting the empty string
yields one empty field, and separators at the ends yield empty fields. -/
def splitComma : List Char → List (List Char)
  | [] => [[]]
  | c :: cs =>
    match splitComma cs, c == ',' with
    | r, true => [] :: r
    | [], false => [[c]]
    | h :: t, false => (c :: h) :: t

/-- JS `String.prototype.trim`: strip leading and trailing whitespace. -/
def trimChars (l : List Char) : List Char :=
  ((l.dropWhile Char.isWhitespace).reverse.dropWhile Char.isWhitespace).reverse

/-- Parsing of the `scopes` query parameter:
`scopes.split(",").map(s => s.trim()).filter(s => s.length > 0)`. -/
def parseScopes (s : String) : List String :=
  ((splitComma s.data).map (fun cs => String.mk (trimChars cs))).filter
    (fun t => t.length > 0)

/-! ## Setup mode -/

/-- `isInSetupMode`: no builtin ("static") provider is configured and the
user store counts zero users. -/
def isInSetupMode (providers : List AuthProvider) (userCount : Nat) : Bool :=
  if providers.any (fun p => p.builtin) then false
  else userCount == 0

/-! ## The authorize gate -/

/-- Outcome of `authorize`: a redirect to the sorry page carrying a message,
or attaching the auth flow to the session and delegating to
`authProvider.authorize(req, res, next, wantedScopes)`. -/
inductive AuthorizeResult where
  | sorryRedirect (msg : String)
  | delegate (flow : AuthFlow) (wantedScopes : List String)
deriving DecidableEq, Repr

/-- An authorize request: session presence, passport authentication state,
and the raw query parameters. -/
structure AuthorizeReq where
  session : Bool
  isAuthenticated : Bool
  user : Option User
  returnTo : Option String
  host : Option String
  scopes : Option String
  override : Option String
deriving Repr

/-- `member?.role === "owner"`: the optional-chaining role test used by the
first authorize policy check (an absent membership compares unequal). -/
def memberRoleIsOwner (member : Option TeamMembership) : Bool :=
  match member with
  | some m => m.role == "owner"
  | none => false

/-- `getCurrentScopes(user, authProvider)`: the stored token's scopes, or
`[]` when the user is invalid or the token lookup throws. -/
def getCurrentScopes (env : Env) (user : Option User) (ap : AuthProvider) :
    List String :=
  match user with
  | some u => (env.getTokenScopes u.id ap.host).getD []
  | none => []

/-- The scope computation inlined in `authorize` (lines parsing
`wantedScopes`, substituting `requirements.default`, and the non-override
merge), as a function of `info.requirements`, the current scopes, the parsed
requested scopes and the override flag. -/
def computeWantedScopes (requirements : Option (List String))
    (current parsed : List String) (override : Bool) : List String :=
  let wanted := if parsed.isEmpty then requirements.getD parsed else parsed
  if override then wanted
  else
    let merged := mergeScopes current wanted
    if current.isEmpty && requirements.isSome then
      mergeScopes (requirements.getD []) merged
    else merged

/-- `Authenticator.authorize`. -/
def authorize (env : Env) (req : AuthorizeReq) : AuthorizeResult :=
  if req.session = false then
    .sorryRedirect "No session found. Please refresh the browser."
  else
    match req.isAuthenticated, req.user with
    | true, some user =>
      let hostStr := req.host.getD ""
      let override := req.override == some "true"
      let authProvider :=
        if jsTruthy req.host then getAuthProviderForHost env hostStr else none
      match authProvider, jsTruthy req.returnTo with
      | some ap, true =>
        -- For non-verified org auth provider, ensure user is an owner of the org
        let member := ap.organizationId.bind (env.findTeamMembership user.id)
        if !ap.verified && ap.organizationId.isSome &&
            !(memberRoleIsOwner member) then
          .sorryRedirect
            ("Authorization with \"" ++ hostStr ++ "\" is not permitted.")
        -- For non-verified, non-org auth provider, ensure user is the owner
        else if !ap.verified && ap.organizationId.isNone &&
            ap.ownerId != some user.id then
          .sorryRedirect
            ("Authorization with \"" ++ hostStr ++ "\" is not permitted.")
        -- Ensure user is a member of the org
        else if ap.organizationId.isSome && member.isNone then
          .sorryRedirect
            ("Authorization with \"" ++ hostStr ++ "\" is not permitted.")
        else
          let flow : AuthFlow :=
            { host := hostStr, returnTo := jsOr req.returnTo "",
              overrideScopes := some override }
          let current := getCurrentScopes env req.user ap
          let wantedScopes :=
            computeWantedScopes ap.requirements current
              (parseScopes (jsOr req.scopes "")) override
          .delegate flow wantedScopes
      | _, _ => .sorryRedirect "Bad request: missing parameters."
    | _, _ => .sorryRedirect "Not authenticated. Please login."

/-! ## The login gate (`authenticate`) -/

/-- Outcome of `authenticate`: pass control to the next handler (already
authenticated), a redirect to the sorry page, or attaching the auth flow and
delegating to `authProvider.authorize(req, res, next)`. -/
inductive LoginResult where
  | next
  | sorryRedirect (msg : String)
  | delegate (flow : AuthFlow)
deriving DecidableEq, Repr

/-- A login request: passport authentication state, session presence, and
the raw query parameters. -/
structure LoginReq where
  isAuthenticated : Bool
  session : Bool
  returnTo : Option String
  host : Option String
deriving Repr

/-- `Authenticator.authenticate`. -/
def authenticate (env : Env) (req : LoginReq) : LoginResult :=
  if req.isAuthenticated then .next
  else
    -- returnTo defaults to workspaces url
    let returnTo := jsOr req.returnTo env.dashboardUrl
    let host := jsOr req.host ""
    let authProvider :=
      if host ≠ "" then getAuthProviderForHost env host else none
    match authProvider with
    | none => .sorryRedirect "Bad request: missing parameters."
    | some ap =>
      -- Logins with organizational Git Auth is not permitted
      if ap.organizationId.isSome then
        .sorryRedirect ("Login with \"" ++ host ++ "\" is not permitted.")
      else if env.disableDynamicAuthProviderLogin && !ap.builtin then
        .sorryRedirect ("Login with " ++ ap.host ++ " is not allowed.")
      else if !req.session then
        .sorryRedirect "No session found. Please refresh the browser."
      else if !ap.verified && !(isInSetupMode env.providers env.userCount) then
        .sorryRedirect ("Login with \"" ++ host ++ "\" is not permitted.")
      else
        .delegate { host := host, returnTo := returnTo, overrideScopes := none }

/-! ## Deauthorization -/

/-- Outcome of `deauthorize`: a sorry-page redirect, a plain redirect to
`returnTo`, or (on an external failure) the error forwarded to `next` *and*
a sorry-page redirect carrying the error's message. -/
inductive DeauthResult where
  | sorryRedirect (msg : String)
  | redirect (url : String)
  | failure (forwardedError : String) (msg : String)
deriving DecidableEq, Repr

/-- A deauthorize request. -/
structure DeauthReq where
  isAuthenticated : Bool
  user : Option User
  returnTo : Option String
  host : Option String
deriving Repr

/-- `Authenticator.deauthorize`. -/
def deauthorize (env : Env) (req : DeauthReq) : DeauthResult :=
  match req.isAuthenticated, req.user with
  | true, some user =>
    let returnTo := jsOr req.returnTo env.dashboardUrl
    let authProvider :=
      if jsTruthy req.host then getAuthProviderForHost env (req.host.getD "")
      else none
    match authProvider with
    | none => .sorryRedirect "Bad request: missing parameters."
    | some ap =>
      match env.deauthorizeCall user.id ap.authProviderId with
      | .ok _ => .redirect returnTo
      | .error e =>
        .failure e
          ("Failed to disconnect a provider: " ++
            (if e = "" then "unknown reason" else e))
  | _, _ => .sorryRedirect "Not authenticated. Please login."

/-! ## JWT key resolution (`secretOrKeyProvider`) -/

/-- A PKI keypair as configured under `config.auth.pki`. -/
structure KeyPair where
  id : String
  publicKey : String
deriving DecidableEq, Repr

/-- `config.auth.pki`: one signing keypair plus validating keypairs. -/
structure AuthPKI where
  signing : KeyPair
  validating : List KeyPair
deriving DecidableEq, Repr

/-- Outcome of the key resolution callback: one of the two thrown errors,
or the resolved public key handed to `done` for signature verification. -/
inductive KeyResolution where
  | missingKeyId
  | unknownKeyId
  | key (publicKey : String)
deriving DecidableEq, Repr

/-- The `publicKeysByID` object built by `reduce`: a later keypair with the
same id overwrites an earlier one. -/
def publicKeysByID (keypairs : List KeyPair) (kid : String) : Option String :=
  keypairs.foldl
    (fun acc kp => if kp.id == kid then some kp.publicKey else acc) none

/-- `secretOrKeyProvider`: read `kid` from the unverified token header
(`none` models an absent `kid` property), reject falsy `kid`
(`!keyID`), look it up in `[signing, ...validating]` and reject a falsy
lookup result (`!publicKeysByID[keyID]`). -/
def secretOrKeyProvider (pki : AuthPKI) (kid : Option String) : KeyResolution :=
  let keypairs := pki.signing :: pki.validating
  match kid with
  | none => .missingKeyId
  | some k =>
    if k = "" then .missingKeyId
    else
      match publicKeysByID keypairs k with
      | none => .unknownKeyId
      | some pk => if pk = "" then .unknownKeyId else .key pk

/-! ## Concrete fixtures (used by witnesses and counterexamples) -/

/-- A verified builtin provider fixture. -/
def ghProvider : AuthProvider :=
  { host := "github.com", verified := true, organizationId := none,
    ownerId := none, requirements := some ["user", "email"], builtin := true,
    authProviderId := "Public-GitHub" }

/-- An unverified, organization-bound provider fixture. -/
def orgProvider : AuthProvider :=
  { host := "gitlab.example", verified := false, organizationId := some "org1",
    ownerId := some "owner1", requirements := some ["api"], builtin := false,
    authProviderId := "Org-GitLab" }

/-- A base environment fixture with one verified builtin provider. -/
def baseEnv : Env :=
  { providers := [ghProvider]
    dashboardUrl := "https://gitpod.io/workspaces"
    disableDynamicAuthProviderLogin := false
    userCount := 1
    findTeamMembership := fun _ _ => none
    getTokenScopes := fun _ _ => none
    deauthorizeCall := fun _ _ => .ok () }

/-- Environment with the unverified org provider and one org membership:
`owner1` is an owner of `org1`, `member1` a plain member. -/
def orgEnv : Env :=
  { baseEnv with
    providers := [orgProvider]
    findTeamMembership := fun uid org =>
      if uid == "owner1" && org == "org1" then some { role := "owner" }
      else if uid == "member1" && org == "org1" then some { role := "member" }
      else none }

/-- Environment whose token store holds scopes `["user"]` for every host. -/
def tokenEnv : Env := { baseEnv with getTokenScopes := fun _ _ => some ["user"] }

/-- Environment whose external deauthorize call fails with message "boom". -/
def deauthFailEnv : Env :=
  { baseEnv with deauthorizeCall := fun _ _ => .error "boom" }

/-- Authorize request fixture: override mode, scopes in non-sorted order. -/
def overrideReq : AuthorizeReq :=
  { session := true, isAuthenticated := true, user := some { id := "user1" },
    returnTo := some "/return", host := some "github.com",
    scopes := some "user,repo", override := some "true" }

/-- Authorize request fixture: merge mode, `scopes=repo,user`. -/
def mergeReq : AuthorizeReq :=
  { session := true, isAuthenticated := true, user := some { id := "user1" },
    returnTo := some "/return", host := some "github.com",
    scopes := some "repo,user", override := none }

/-- Authorize request fixture with no `returnTo` parameter. -/
def noReturnToReq : AuthorizeReq :=
  { session := true, isAuthenticated := true, user := some { id := "user1" },
    returnTo := none, host := some "github.com",
    scopes := some "repo", override := none }

/-- An authorize request with session and authentication present and all
three query parameters supplied. -/
def mkAuthorizeReq (u : User) (r h s : String) (o : Option String) :
    AuthorizeReq :=
  { session := true, isAuthenticated := true, user := some u,
    returnTo := some r, host := some h, scopes := some s, override := o }

/-- A PKI fixture: one signing key, one validating key. -/
def basePki : AuthPKI :=
  { signing := { id := "sig1", publicKey := "PUBKEY-1" },
    validating := [{ id := "val1", publicKey := "PUBKEY-2" }] }

/-! ## Order facts about the sort comparator -/

theorem charListLeb_total :
    ∀ x y : List Char, charListLeb x y = true ∨ charListLeb y x = true := by
  intro x
  induction x with
  | nil => intro y; left; rfl
  | cons a as ih =>
    intro y
    cases y with
    | nil => right; rfl
    | cons b bs =>
      rcases lt_trichotomy a b with hab | hab | hab
      · left; simp [charListLeb, hab]
      · subst hab
        rcases ih bs with h | h
        · left; simp [charListLeb, lt_irrefl, h]
        · right; simp [charListLeb, lt_irrefl, h]
      · right; simp [charListLeb, hab]

theorem charListLeb_trans :
    ∀ x y z : List Char, charListLeb x y = true → charListLeb y z = true →
      charListLeb x z = true := by
  intro x
  induction x with
  | nil => intro y z _ _; rfl
  | cons a as ih =>
    intro y z h₁ h₂
    cases y with
    | nil => simp [charListLeb] at h₁
    | cons b bs =>
      cases z with
      | nil => simp [charListLeb] at h₂
      | cons c cs =>
        rcases lt_trichotomy a b with hab | hab | hab
        · rcases lt_trichotomy b c with hbc | hbc | hbc
          · simp [charListLeb, lt_trans hab hbc]
          · subst hbc; simp [charListLeb, hab]
          · simp [charListLeb, hbc, lt_asymm hbc] at h₂
        · subst hab
          rcases lt_trichotomy a c with hac | hac | hac
          · simp [charListLeb, hac]
          · subst hac
            simp only [charListLeb, lt_irrefl, if_false] at h₁ h₂ ⊢
            exact ih _ _ h₁ h₂
          · simp [charListLeb, hac, lt_asymm hac] at h₂
        · simp [charListLeb, hab, lt_asymm hab] at h₁

theorem charListLeb_antisymm :
    ∀ x y : List Char, charListLeb x y = true → charListLeb y x = true →
      x = y := by
  intro x
  induction x with
  | nil =>
    intro y _ h₂
    cases y with
    | nil => rfl
    | cons b bs => simp [charListLeb] at h₂
  | cons a as ih =>
    intro y h₁ h₂
    cases y with
    | nil => simp [charListLeb] at h₁
    | cons b bs =>
      rcases lt_trichotomy a b with hab | hab | hab
      · simp [charListLeb, hab, lt_asymm hab] at h₂
      · subst hab
        simp only [charListLeb, lt_irrefl, if_false] at h₁ h₂
        exact congrArg (a :: ·) (ih _ h₁ h₂)
      · simp [charListLeb, hab, lt_asymm hab] at h₁

instance : IsTotal String scopeLe := ⟨fun a b => charListLeb_total a.data b.data⟩

instance : IsTrans String scopeLe :=
  ⟨fun a b c => charListLeb_trans a.data b.data c.data⟩

instance : IsAntisymm String scopeLe := by
  refine ⟨fun a b h₁ h₂ => ?_⟩
  have h := charListLeb_antisymm a.data b.data h₁ h₂
  cases a; cases b; exact congrArg String.mk h

/-! ## Canonical-form lemmas for `sortedSet` / `mergeScopes` -/

theorem mem_jsSetAdd (x s : String) (l : List String) :
    x ∈ jsSetAdd l s ↔ x ∈ l ∨ x = s := by
  unfold jsSetAdd
  split
  · rename_i hmem
    constructor
    · exact Or.inl
    · rintro (h | rfl)
      · exact h
      · exact hmem
  · simp

theorem nodup_jsSetAdd {l : List String} (h : l.Nodup) (s : String) :
    (jsSetAdd l s).Nodup := by
  unfold jsSetAdd
  split
  · exact h
  · rename_i hmem
    simpa [List.nodup_append] using ⟨h, hmem⟩

theorem mem_foldl_jsSetAdd (x : String) :
    ∀ (l acc : List String), x ∈ l.foldl jsSetAdd acc ↔ x ∈ acc ∨ x ∈ l := by
  intro l
  induction l with
  | nil => simp
  | cons a as ih =>
    intro acc
    simp only [List.foldl_cons, ih, mem_jsSetAdd, List.mem_cons]
    tauto

theorem nodup_foldl_jsSetAdd :
    ∀ (l acc : List String), acc.Nodup → (l.foldl jsSetAdd acc).Nodup := by
  intro l
  induction l with
  | nil => intro acc h; exact h
  | cons a as ih => intro acc h; exact ih _ (nodup_jsSetAdd h a)

theorem mem_jsSetList (x : String) (l : List String) :
    x ∈ jsSetList l ↔ x ∈ l := by
  simp [jsSetList, mem_foldl_jsSetAdd]

theorem nodup_jsSetList (l : List String) : (jsSetList l).Nodup :=
  nodup_foldl_jsSetAdd l [] List.nodup_nil

theorem mem_sortedSet (x : String) (l : List String) :
    x ∈ sortedSet l ↔ x ∈ l := by
  rw [sortedSet, (List.perm_insertionSort scopeLe (jsSetList l)).mem_iff]
  exact mem_jsSetList x l

theorem nodup_sortedSet (l : List String) : (sortedSet l).Nodup :=
  (List.perm_insertionSort scopeLe (jsSetList l)).nodup_iff.mpr
    (nodup_jsSetList l)

theorem sorted_sortedSet (l : List String) : List.Sorted scopeLe (sortedSet l) :=
  List.sorted_insertionSort scopeLe (jsSetList l)

/-- Two lists with the same members have the same `sortedSet`. -/
theorem sortedSet_eq_of_mem_iff {l₁ l₂ : List String}
    (h : ∀ x, x ∈ l₁ ↔ x ∈ l₂) : sortedSet l₁ = sortedSet l₂ := by
  apply List.eq_of_perm_of_sorted _ (sorted_sortedSet l₁) (sorted_sortedSet l₂)
  apply (List.perm_ext_iff_of_nodup (nodup_sortedSet l₁) (nodup_sortedSet l₂)).2
  intro x
  rw [mem_sortedSet, mem_sortedSet]
  exact h x

/-- `sortedSet` fixes lists that are already sorted and duplicate-free. -/
theorem sortedSet_eq_self {l : List String} (hs : List.Sorted scopeLe l)
    (hn : l.Nodup) : sortedSet l = l := by
  apply List.eq_of_perm_of_sorted _ (sorted_sortedSet l) hs
  apply (List.perm_ext_iff_of_nodup (nodup_sortedSet l) hn).2
  intro x
  exact mem_sortedSet x l

theorem mem_mergeScopes (x : String) (a b : List String) :
    x ∈ mergeScopes a b ↔ x ∈ a ∨ x ∈ b := by
  simp [mergeScopes, mem_sortedSet]

theorem sorted_mergeScopes (a b : List String) :
    List.Sorted scopeLe (mergeScopes a b) := sorted_sortedSet _

theorem nodup_mergeScopes (a b : List String) :
    (mergeScopes a b).Nodup := nodup_sortedSet _

theorem sortedSet_eq_nil_iff (l : List String) : sortedSet l = [] ↔ l = [] := by
  constructor
  · intro h
    apply List.eq_nil_iff_forall_not_mem.2
    intro x hx
    have hm := (mem_sortedSet x l).2 hx
    rw [h] at hm
    exact absurd hm (List.not_mem_nil x)
  · rintro rfl; rfl

theorem sortedSet_idem (l : List String) : sortedSet (sortedSet l) = sortedSet l :=
  sortedSet_eq_self (sorted_sortedSet l) (nodup_sortedSet l)

theorem sortedSet_append_subset {l w : List String} (h : ∀ x ∈ w, x ∈ l) :
    sortedSet (l ++ w) = sortedSet l := by
  apply sortedSet_eq_of_mem_iff
  intro x
  rw [List.mem_append]
  exact ⟨fun hx => hx.elim id (h x), Or.inl⟩

theorem mergeScopes_left_flatten (a b c : List String) :
    mergeScopes a (mergeScopes b c) = sortedSet (a ++ (b ++ c)) := by
  apply sortedSet_eq_of_mem_iff
  intro x
  simp [mergeScopes, List.mem_append, mem_sortedSet]

/-- The non-override branch of the scope computation, flattened to a single
sorted-set expression per case. -/
theorem computeWantedScopes_false_eq (D A B : List String) :
    computeWantedScopes (some D) A B false =
      (let w := if B.isEmpty then D else B
       if A.isEmpty then sortedSet (D ++ (A ++ w)) else sortedSet (A ++ w)) := by
  unfold computeWantedScopes
  simp only [Option.getD_some, Option.isSome_some, Bool.and_true, if_false,
    Bool.false_eq_true]
  cases hA : A.isEmpty
  · simp [hA, mergeScopes]
  · simp [hA, mergeScopes_left_flatten]

theorem jsOr_some_empty (s : String) : jsOr (some s) "" = s := by
  by_cases h : s = "" <;> simp [jsOr, h]

theorem jsTruthy_some (s : String) : jsTruthy (some s) = true ↔ s ≠ "" := by
  simp [jsTruthy]

/-! ## Claim theorems -/

/-- C6: setup mode is true if and only if zero builtin providers are
registered and the user store reports zero users; registering one builtin
provider or having one user makes it false. -/
theorem setupMode_iff_no_builtin_and_no_users
    (providers : List AuthProvider) (userCount : Nat) :
    (isInSetupMode providers userCount = true ↔
      ((∀ p ∈ providers, p.builtin = false) ∧ userCount = 0)) ∧
    (∀ p : AuthProvider, p.builtin = true →
      isInSetupMode (p :: providers) userCount = false) ∧
    (1 ≤ userCount → isInSetupMode providers userCount = false) := by
  refine ⟨?_, ?_, ?_⟩
  · unfold isInSetupMode
    by_cases h : providers.any (fun p => p.builtin) = true
    · rw [if_pos h]
      simp only [List.any_eq_true] at h
      obtain ⟨p, hp, hb⟩ := h
      constructor
      · intro hfalse; cases hfalse
      · rintro ⟨hall, -⟩
        exact absurd (hall p hp) (by simp [hb])
    · rw [if_neg h]
      simp only [List.any_eq_true, not_exists] at h
      push_neg at h
      constructor
      · intro hc
        refine ⟨fun p hp => ?_, by simpa using hc⟩
        by_cases hb : p.builtin = true
        · exact absurd hb (h p hp)
        · simpa using hb
      · rintro ⟨-, rfl⟩; rfl
  · intro p hb
    unfold isInSetupMode
    rw [if_pos]
    simp [List.any_cons, hb]
  · intro hu
    unfold isInSetupMode
    split
    · rfl
    · simp [Nat.ne_of_gt hu]

/-- C6 witness: setup mode holds for an empty installation and is flipped
false by one builtin provider or one user. -/
theorem setupMode_iff_no_builtin_and_no_users_witness :
    isInSetupMode [] 0 = true ∧
    isInSetupMode [ghProvider] 0 = false ∧
    isInSetupMode [] 1 = false :=
  ⟨(setupMode_iff_no_builtin_and_no_users [] 0).1.mpr
      ⟨fun p hp => absurd hp (List.not_mem_nil p), rfl⟩,
    (setupMode_iff_no_builtin_and_no_users [] 0).2.1 ghProvider (by decide),
    (setupMode_iff_no_builtin_and_no_users [] 1).2.2 (by decide)⟩

/-- C10: a login request whose session is already authenticated passes
control onward (`next()`) for every environment and every remaining request
content — no host validation, registry lookup, policy or setup-mode check,
and no `AuthFlowState` write (the `next` outcome carries no flow), even when
`host` is missing or resolves to no provider. -/
theorem authenticated_login_passes_through (env : Env) (req : LoginReq)
    (h : req.isAuthenticated = true) : authenticate env req = .next := by
  unfold authenticate
  rw [h]
  rfl

/-- C10 witness: an authenticated request with no `host` and no session
container still passes through. -/
theorem authenticated_login_passes_through_witness :
    authenticate baseEnv
      { isAuthenticated := true, session := false, returnTo := none,
        host := none } = .next :=
  authenticated_login_passes_through baseEnv _ rfl

/-- C1 counterexample: for an authorize request with `override == "true"`
and `scopes=user,repo`, the code delegates with the parsed scopes in request
order `["user", "repo"]`, while `dedupe(sort(requested))` is
`["repo", "user"]` — the computed list is neither sorted nor equal to the
claimed value (`mergeScopes` never runs in the override branch). -/
theorem override_scopes_not_sorted_counterexample :
    authorize baseEnv overrideReq =
      .delegate
        { host := "github.com", returnTo := "/return",
          overrideScopes := some true } ["user", "repo"] ∧
    sortedSet ["user", "repo"] = ["repo", "user"] ∧
    (["user", "repo"] : List String) ≠ ["repo", "user"] := by
  decide

/-- C1 (amended): for every authorize request with `override == "true"` that
reaches scope computation, the computed scope list is exactly the parsed
requested scopes — in request order, duplicates preserved, not re-sorted —
or the provider's default scopes verbatim when the parsed list is empty;
the current scope set is never consulted (the result is independent of the
token store, which appears nowhere in the conclusion). -/
theorem override_scopes_verbatim (env : Env) (u : User) (r h s : String)
    (o : Option String) (ap : AuthProvider)
    (hr : r ≠ "") (hh : h ≠ "")
    (hap : getAuthProviderForHost env h = some ap)
    (ho : o = some "true")
    (hfail1 : (!ap.verified && ap.organizationId.isSome &&
      !(memberRoleIsOwner
        (ap.organizationId.bind (env.findTeamMembership u.id)))) = false)
    (hfail2 : (!ap.verified && ap.organizationId.isNone &&
      (ap.ownerId != some u.id)) = false)
    (hfail3 : (ap.organizationId.isSome &&
      (ap.organizationId.bind (env.findTeamMembership u.id)).isNone) = false) :
    authorize env
      { session := true, isAuthenticated := true, user := some u,
        returnTo := some r, host := some h, scopes := some s, override := o } =
      .delegate { host := h, returnTo := r, overrideScopes := some true }
        (if (parseScopes s).isEmpty then ap.requirements.getD (parseScopes s)
         else parseScopes s) := by
  subst ho
  simp only [authorize, jsTruthy]
  rw [if_neg (by simp)]
  have h1 : (if decide (h ≠ "") = true then
      getAuthProviderForHost env ((some h).getD "") else none) = some ap := by
    simp [hh, hap]
  rw [h1, decide_eq_true hr]
  simp only []
  rw [hfail1, hfail2, hfail3]
  simp only [Bool.false_eq_true, if_false, Option.getD_some]
  rw [jsOr_some_empty, jsOr_some_empty]
  simp [computeWantedScopes]

/-- C1 witness: the amended theorem applied at a concrete verified provider
and request `scopes=user,repo`, `override=true`. -/
theorem override_scopes_verbatim_witness :
    authorize baseEnv overrideReq =
      .delegate
        { host := "github.com", returnTo := "/return",
          overrideScopes := some true } ["user", "repo"] := by
  have h := override_scopes_verbatim baseEnv { id := "user1" } "/return"
    "github.com" "user,repo" (some "true") ghProvider (by decide) (by decide)
    (by decide) rfl (by decide) (by decide) (by decide)
  exact h.trans (by decide)

/-- C2: for every authorize request with `override == false` that reaches
scope computation (with `D` the provider's default scopes): the requested
scopes are parsed from the comma-separated `scopes` parameter with entries
trimmed and empty entries dropped (`parseScopes`), defaults are substituted
when the parsed list is empty, and the result is
`dedupe(sort(current ∪ requested))` — with the defaults additionally
unioned in exactly when the current scope set is empty. -/
theorem merge_scopes_non_override (env : Env) (u : User) (r h s : String)
    (o : Option String) (ap : AuthProvider) (D : List String)
    (hr : r ≠ "") (hh : h ≠ "")
    (hap : getAuthProviderForHost env h = some ap)
    (ho : (o == some "true") = false)
    (hD : ap.requirements = some D)
    (hfail1 : (!ap.verified && ap.organizationId.isSome &&
      !(memberRoleIsOwner
        (ap.organizationId.bind (env.findTeamMembership u.id)))) = false)
    (hfail2 : (!ap.verified && ap.organizationId.isNone &&
      (ap.ownerId != some u.id)) = false)
    (hfail3 : (ap.organizationId.isSome &&
      (ap.organizationId.bind (env.findTeamMembership u.id)).isNone) = false) :
    authorize env
      { session := true, isAuthenticated := true, user := some u,
        returnTo := some r, host := some h, scopes := some s, override := o } =
      .delegate { host := h, returnTo := r, overrideScopes := some false }
        (if (getCurrentScopes env (some u) ap).isEmpty then
          sortedSet (D ++ (getCurrentScopes env (some u) ap ++
            (if (parseScopes s).isEmpty then D else parseScopes s)))
         else
          sortedSet (getCurrentScopes env (some u) ap ++
            (if (parseScopes s).isEmpty then D else parseScopes s))) := by
  simp only [authorize, jsTruthy]
  rw [if_neg (by simp)]
  have h1 : (if decide (h ≠ "") = true then
      getAuthProviderForHost env ((some h).getD "") else none) = some ap := by
    simp [hh, hap]
  rw [h1, decide_eq_true hr]
  simp only []
  rw [hfail1, hfail2, hfail3]
  simp only [Bool.false_eq_true, if_false, Option.getD_some]
  rw [jsOr_some_empty, jsOr_some_empty, ho, hD, computeWantedScopes_false_eq]

/-- C2 witness: the claim's example — `scopes=repo,user`,
`current=["user"]`, `defaults=["user","email"]` yields `["repo","user"]`
(defaults not unioned in, because current is non-empty). -/
theorem merge_scopes_non_override_witness :
    authorize tokenEnv mergeReq =
      .delegate
        { host := "github.com", returnTo := "/return",
          overrideScopes := some false } ["repo", "user"] := by
  have h := merge_scopes_non_override tokenEnv { id := "user1" } "/return"
    "github.com" "repo,user" none ghProvider ["user", "email"] (by decide)
    (by decide) (by decide) (by decide) (by decide) (by decide) (by decide)
    (by decide)
  exact h.trans (by decide)

theorem computeWanted_false_nilA (D B : List String) :
    computeWantedScopes (some D) [] B false =
      sortedSet (D ++ (if B.isEmpty then D else B)) := by
  rw [computeWantedScopes_false_eq]
  simp

theorem computeWanted_false_consA (D B : List String) (a : String)
    (as : List String) :
    computeWantedScopes (some D) (a :: as) B false =
      sortedSet ((a :: as) ++ (if B.isEmpty then D else B)) := by
  rw [computeWantedScopes_false_eq]
  simp

/-- Re-running the non-override scope computation on a canonical sorted set
that already contains the effective requested scopes is the identity. -/
theorem computeWanted_idem_aux (D B L : List String)
    (hwL : ∀ x ∈ (if B.isEmpty then D else B), x ∈ L)
    (hnil : sortedSet L = [] → D = []) :
    computeWantedScopes (some D) (sortedSet L) B false = sortedSet L := by
  cases hout : sortedSet L with
  | nil =>
    have hD := hnil hout
    have hL : L = [] := (sortedSet_eq_nil_iff L).mp hout
    have hw : (if B.isEmpty then D else B) = [] := by
      cases hwe : (if B.isEmpty then D else B) with
      | nil => rfl
      | cons c cs =>
        refine absurd (hL ▸ hwL c ?_) (List.not_mem_nil c)
        rw [hwe]
        exact List.mem_cons_self c cs
    rw [computeWanted_false_nilA, hw, hD]
    rfl
  | cons o os =>
    rw [computeWanted_false_consA, ← hout,
      sortedSet_append_subset (fun x hx => (mem_sortedSet x L).mpr (hwL x hx))]
    exact sortedSet_idem L

/-- C7: non-override scope negotiation is order-independent — permuting the
requested or the current scope list does not change the result — and
idempotent: re-running it with its own output as the current scope set
returns that output unchanged. (`computeWantedScopes (some D) current
requested false` is the scope computation `authorize` performs in merge
mode with provider defaults `D`.) -/
theorem negotiate_order_independent_idempotent
    (A B D A' B' : List String) (hA : A'.Perm A) (hB : B'.Perm B) :
    computeWantedScopes (some D) A' B' false =
      computeWantedScopes (some D) A B false ∧
    computeWantedScopes (some D)
      (computeWantedScopes (some D) A B false) B false =
      computeWantedScopes (some D) A B false := by
  have hBnil : B' = [] ↔ B = [] :=
    ⟨fun e => ((e ▸ hB : ([] : List String).Perm B)).symm.eq_nil,
      fun e => (e ▸ hB : B'.Perm []).eq_nil⟩
  have hAnil : A' = [] ↔ A = [] :=
    ⟨fun e => ((e ▸ hA : ([] : List String).Perm A)).symm.eq_nil,
      fun e => (e ▸ hA : A'.Perm []).eq_nil⟩
  have hBe : B'.isEmpty = B.isEmpty := by
    rw [Bool.eq_iff_iff, List.isEmpty_iff, List.isEmpty_iff]
    exact hBnil
  have hAe : A'.isEmpty = A.isEmpty := by
    rw [Bool.eq_iff_iff, List.isEmpty_iff, List.isEmpty_iff]
    exact hAnil
  constructor
  · rw [computeWantedScopes_false_eq, computeWantedScopes_false_eq]
    simp only [hAe, hBe]
    cases hae : A.isEmpty <;> cases hbe : B.isEmpty <;>
      simp only [Bool.false_eq_true, if_false, if_true] <;>
      exact sortedSet_eq_of_mem_iff (fun x => by
        simp [List.mem_append, hA.mem_iff, hB.mem_iff])
  · cases A with
    | nil =>
      rw [computeWanted_false_nilA]
      exact computeWanted_idem_aux D B _
        (fun x hx => List.mem_append.mpr (Or.inr hx))
        (fun h => ((List.append_eq_nil.mp
          ((sortedSet_eq_nil_iff _).mp h)).1))
    | cons a as =>
      rw [computeWanted_false_consA]
      refine computeWanted_idem_aux D B _
        (fun x hx => List.mem_append.mpr (Or.inr hx)) (fun h => ?_)
      exact absurd ((sortedSet_eq_nil_iff _).mp h) (by simp)

/-- C7 witness: the theorem applied at concrete permuted inputs
`A = ["user", "repo"]`, `B = ["email", "repo"]`, `D = ["email"]`. -/
theorem negotiate_order_independent_idempotent_witness :
    computeWantedScopes (some ["email"]) ["repo", "user"] ["repo", "email"]
        false =
      computeWantedScopes (some ["email"]) ["user", "repo"] ["email", "repo"]
        false ∧
    computeWantedScopes (some ["email"])
        (computeWantedScopes (some ["email"]) ["user", "repo"]
          ["email", "repo"] false) ["email", "repo"] false =
      computeWantedScopes (some ["email"]) ["user", "repo"] ["email", "repo"]
        false :=
  negotiate_order_independent_idempotent ["user", "repo"] ["email", "repo"]
    ["email"] ["repo", "user"] ["repo", "email"]
    (List.Perm.swap "user" "repo" []) (List.Perm.swap "email" "repo" [])

/-- C3: in the authorize flow, once the request-level preconditions hold
(session, authenticated user, non-empty `returnTo` and `host`, resolvable
provider), the three policy checks run in order with the first failing
check producing the denial redirect: (1) unverified + organization-bound
requires an owner-role membership; (2) unverified + not organization-bound
requires the caller to be the provider's owner; (3) organization-bound
(verified or not) requires some membership; only when all applicable
checks pass does scope computation and delegation occur. -/
theorem authorize_policy_checks_in_order (env : Env) (u : User)
    (r h s : String) (o : Option String) (ap : AuthProvider)
    (hr : r ≠ "") (hh : h ≠ "")
    (hap : getAuthProviderForHost env h = some ap) :
    ((!ap.verified && ap.organizationId.isSome &&
      !(memberRoleIsOwner
        (ap.organizationId.bind (env.findTeamMembership u.id)))) = true →
      authorize env (mkAuthorizeReq u r h s o) =
        .sorryRedirect ("Authorization with \"" ++ h ++ "\" is not permitted.")) ∧
    ((!ap.verified && ap.organizationId.isSome &&
      !(memberRoleIsOwner
        (ap.organizationId.bind (env.findTeamMembership u.id)))) = false →
     (!ap.verified && ap.organizationId.isNone &&
      (ap.ownerId != some u.id)) = true →
      authorize env (mkAuthorizeReq u r h s o) =
        .sorryRedirect ("Authorization with \"" ++ h ++ "\" is not permitted.")) ∧
    ((!ap.verified && ap.organizationId.isSome &&
      !(memberRoleIsOwner
        (ap.organizationId.bind (env.findTeamMembership u.id)))) = false →
     (!ap.verified && ap.organizationId.isNone &&
      (ap.ownerId != some u.id)) = false →
     (ap.organizationId.isSome &&
      (ap.organizationId.bind (env.findTeamMembership u.id)).isNone) = true →
      authorize env (mkAuthorizeReq u r h s o) =
        .sorryRedirect ("Authorization with \"" ++ h ++ "\" is not permitted.")) ∧
    ((!ap.verified && ap.organizationId.isSome &&
      !(memberRoleIsOwner
        (ap.organizationId.bind (env.findTeamMembership u.id)))) = false →
     (!ap.verified && ap.organizationId.isNone &&
      (ap.ownerId != some u.id)) = false →
     (ap.organizationId.isSome &&
      (ap.organizationId.bind (env.findTeamMembership u.id)).isNone) = false →
      authorize env (mkAuthorizeReq u r h s o) =
        .delegate
          { host := h, returnTo := r, overrideScopes := some (o == some "true") }
          (computeWantedScopes ap.requirements (getCurrentScopes env (some u) ap)
            (parseScopes s) (o == some "true"))) := by
  simp only [mkAuthorizeReq, authorize, jsTruthy]
  rw [if_neg (by simp)]
  have h1 : (if decide (h ≠ "") = true then
      getAuthProviderForHost env ((some h).getD "") else none) = some ap := by
    simp [hh, hap]
  rw [h1, decide_eq_true hr]
  simp only [Option.getD_some]
  refine ⟨fun hf1 => ?_, fun hf1 hf2 => ?_, fun hf1 hf2 hf3 => ?_,
    fun hf1 hf2 hf3 => ?_⟩
  · rw [hf1]
    simp
  · rw [hf1, hf2]
    simp
  · rw [hf1, hf2, hf3]
    simp
  · rw [hf1, hf2, hf3]
    simp only [Bool.false_eq_true, if_false]
    rw [jsOr_some_empty, jsOr_some_empty]

/-- C3 witness: on the unverified organization-bound provider, a
non-member is denied by the first check, while an org owner passes all
checks and reaches delegation with the computed scopes. -/
theorem authorize_policy_checks_in_order_witness :
    authorize orgEnv (mkAuthorizeReq { id := "user9" } "/r" "gitlab.example"
        "" none) =
      .sorryRedirect "Authorization with \"gitlab.example\" is not permitted." ∧
    authorize orgEnv (mkAuthorizeReq { id := "owner1" } "/r" "gitlab.example"
        "" none) =
      .delegate
        { host := "gitlab.example", returnTo := "/r",
          overrideScopes := some false } ["api"] :=
  ⟨((authorize_policy_checks_in_order orgEnv { id := "user9" } "/r"
      "gitlab.example" "" none orgProvider (by decide) (by decide)
      (by decide)).1 (by decide)).trans (by decide),
    (((authorize_policy_checks_in_order orgEnv { id := "owner1" } "/r"
      "gitlab.example" "" none orgProvider (by decide) (by decide)
      (by decide)).2.2.2 (by decide) (by decide) (by decide)).trans
      (by decide))⟩

/-- For an unauthenticated request, `authenticate` is the linear cascade of
the five login checks. -/
theorem authenticate_unauth_eq (env : Env) (req : LoginReq)
    (hna : req.isAuthenticated = false) :
    authenticate env req =
      (match (if jsOr req.host "" ≠ "" then
          getAuthProviderForHost env (jsOr req.host "") else none) with
      | none => .sorryRedirect "Bad request: missing parameters."
      | some ap =>
        if ap.organizationId.isSome then
          .sorryRedirect ("Login with \"" ++ jsOr req.host "" ++
            "\" is not permitted.")
        else if env.disableDynamicAuthProviderLogin && !ap.builtin then
          .sorryRedirect ("Login with " ++ ap.host ++ " is not allowed.")
        else if !req.session then
          .sorryRedirect "No session found. Please refresh the browser."
        else if !ap.verified && !(isInSetupMode env.providers env.userCount) then
          .sorryRedirect ("Login with \"" ++ jsOr req.host "" ++
            "\" is not permitted.")
        else
          .delegate { host := jsOr req.host ""
                      returnTo := jsOr req.returnTo env.dashboardUrl
                      overrideScopes := none }) := by
  unfold authenticate
  rw [hna]
  rfl

/-- C4: for every login request that is not already authenticated, the
login gate evaluates its checks in this order, terminating with a
redirect-with-message at the first failure: (1) non-empty host resolving
to a provider, (2) provider not organization-bound, (3) provider builtin
or dynamic-provider logins enabled, (4) a session exists, (5) provider
verified or setup mode; only when all five pass is
`AuthFlowState{host, returnTo}` attached and the provider's authorize
entry point invoked. -/
theorem login_gate_checks_in_order (env : Env) (req : LoginReq)
    (hna : req.isAuthenticated = false) :
    ((if jsOr req.host "" ≠ "" then
        getAuthProviderForHost env (jsOr req.host "") else none) = none →
      ∃ m, authenticate env req = .sorryRedirect m) ∧
    (∀ ap, (if jsOr req.host "" ≠ "" then
        getAuthProviderForHost env (jsOr req.host "") else none) = some ap →
      (ap.organizationId.isSome = true →
        ∃ m, authenticate env req = .sorryRedirect m) ∧
      (ap.organizationId.isSome = false →
        ((env.disableDynamicAuthProviderLogin && !ap.builtin) = true →
          ∃ m, authenticate env req = .sorryRedirect m) ∧
        ((env.disableDynamicAuthProviderLogin && !ap.builtin) = false →
          (req.session = false →
            ∃ m, authenticate env req = .sorryRedirect m) ∧
          (req.session = true →
            ((!ap.verified &&
              !(isInSetupMode env.providers env.userCount)) = true →
              ∃ m, authenticate env req = .sorryRedirect m) ∧
            ((!ap.verified &&
              !(isInSetupMode env.providers env.userCount)) = false →
              authenticate env req =
                .delegate { host := jsOr req.host ""
                            returnTo := jsOr req.returnTo env.dashboardUrl
                            overrideScopes := none }))))) := by
  rw [authenticate_unauth_eq env req hna]
  constructor
  · intro hap
    rw [hap]
    exact ⟨_, rfl⟩
  · intro ap hap
    rw [hap]
    simp only []
    constructor
    · intro hc
      rw [hc]
      simp
    · intro hc
      rw [hc]
      simp only [Bool.false_eq_true, if_false]
      constructor
      · intro hd
        rw [hd]
        simp
      · intro hd
        rw [hd]
        simp only [Bool.false_eq_true, if_false]
        constructor
        · intro hs
          rw [hs]
          simp
        · intro hs
          rw [hs]
          simp only [Bool.not_true, Bool.false_and, Bool.false_eq_true,
            if_false]
          constructor
          · intro hv
            rw [hv]
            simp
          · intro hv
            rw [hv]
            simp

/-- C4 witness: with a verified builtin provider and all five checks
passing, login delegates with the attached flow; on an organization-bound
provider the second check yields a denial redirect. -/
theorem login_gate_checks_in_order_witness :
    authenticate baseEnv
        { isAuthenticated := false, session := true, returnTo := none,
          host := some "github.com" } =
      .delegate { host := "github.com"
                  returnTo := "https://gitpod.io/workspaces"
                  overrideScopes := none } ∧
    (∃ m, authenticate orgEnv
        { isAuthenticated := false, session := true, returnTo := none,
          host := some "gitlab.example" } = .sorryRedirect m) :=
  ⟨((((((login_gate_checks_in_order baseEnv
      { isAuthenticated := false, session := true, returnTo := none,
        host := some "github.com" } rfl).2 ghProvider
      (by decide)).2 (by decide)).2 (by decide)).2 rfl).2 (by decide)).trans
      (by decide),
    ((login_gate_checks_in_order orgEnv
      { isAuthenticated := false, session := true, returnTo := none,
        host := some "gitlab.example" } rfl).2 orgProvider (by decide)).1
      (by decide)⟩

/-- C5 counterexample: two concrete inputs where the claim fails on the
code. (a) The key ring contains a key with id `""` and the token header
carries `kid = ""`: the kid is present and is among the ring's keys, so the
claim requires the resolved public key to be handed to verification, but
the code's falsy test `!keyID` throws the missing-key-id error. (b) The
ring contains id `"k"` with an empty public key string and the token
carries `kid = "k"`: again present and among the keys, but the falsy lookup
test `!publicKeysByID[keyID]` throws the unknown-key-id error instead of
handing over the key. -/
theorem key_resolution_counterexample :
    secretOrKeyProvider
        { signing := { id := "", publicKey := "pk0" }, validating := [] }
        (some "") = .missingKeyId ∧
    secretOrKeyProvider
        { signing := { id := "k", publicKey := "" }, validating := [] }
        (some "k") = .unknownKeyId := by
  decide

/-- C5 (amended): token key resolution reads the `kid` from the unverified
header; if the kid is absent *or the empty string* it fails with the
missing-key-id error; if the kid is non-empty but resolves in the key ring
(signing key plus validating keys, later entries winning on duplicate ids)
to no key *or to an empty public-key string*, it always fails with the
unknown-key-id error and never any other error; otherwise the resolved
public key is handed to signature verification. -/
theorem key_resolution_amended (pki : AuthPKI) (kid : Option String) :
    (jsTruthy kid = false → secretOrKeyProvider pki kid = .missingKeyId) ∧
    (∀ k, kid = some k → k ≠ "" →
      ((publicKeysByID (pki.signing :: pki.validating) k = none ∨
        publicKeysByID (pki.signing :: pki.validating) k = some "") →
        secretOrKeyProvider pki kid = .unknownKeyId) ∧
      (∀ pk, publicKeysByID (pki.signing :: pki.validating) k = some pk →
        pk ≠ "" → secretOrKeyProvider pki kid = .key pk)) := by
  cases kid with
  | none =>
    refine ⟨fun _ => rfl, fun k hk => ?_⟩
    cases hk
  | some k =>
    constructor
    · intro hfalsy
      have hk : k = "" := by
        simpa [jsTruthy] using hfalsy
      simp [secretOrKeyProvider, hk]
    · intro k' hk'
      injection hk' with hk'
      subst hk'
      intro hne
      constructor
      · intro hlook
        rcases hlook with hlook | hlook <;>
          simp [secretOrKeyProvider, hne, hlook]
      · intro pk hlook hpkne
        simp [secretOrKeyProvider, hne, hlook, hpkne]

/-- C5 witness: the amended theorem applied at the PKI fixture — an unknown
kid yields the unknown-key-id error, a validating-key kid resolves to its
public key, and an absent kid yields the missing-key-id error. -/
theorem key_resolution_amended_witness :
    secretOrKeyProvider basePki (some "nope") = .unknownKeyId ∧
    secretOrKeyProvider basePki (some "val1") = .key "PUBKEY-2" ∧
    secretOrKeyProvider basePki none = .missingKeyId :=
  ⟨((key_resolution_amended basePki (some "nope")).2 "nope" rfl
      (by decide)).1 (Or.inl (by decide)),
    ((key_resolution_amended basePki (some "val1")).2 "val1" rfl
      (by decide)).2 "PUBKEY-2" (by decide) (by decide),
    (key_resolution_amended basePki none).1 rfl⟩
theorem jsOr_none (b : String) : jsOr none b = b := rfl

theorem jsOr_some_self (b : String) : jsOr (some b) b = b := by
  by_cases h : b = "" <;> simp [jsOr, h]

/-- C8 counterexample: in the authorize flow a missing `returnTo` does not
default to the dashboard — the request (valid session, authenticated user,
resolvable host) terminates with the bad-request denial redirect instead
of proceeding. -/
theorem returnTo_default_counterexample :
    noReturnToReq.returnTo = none ∧
    authorize baseEnv noReturnToReq =
      .sorryRedirect "Bad request: missing parameters." := by
  decide

/-- C8 (amended): when the `returnTo` query parameter is unspecified, the
login and deauthorize flows default it to the dashboard URL (each behaves
exactly as if `returnTo` had been the dashboard URL); the authorize flow
instead terminates with a bad-request denial redirect when `returnTo` is
absent. -/
theorem returnTo_default_amended (env : Env) :
    (∀ req : LoginReq, req.returnTo = none →
      authenticate env req =
        authenticate env { req with returnTo := some env.dashboardUrl }) ∧
    (∀ req : DeauthReq, req.returnTo = none →
      deauthorize env req =
        deauthorize env { req with returnTo := some env.dashboardUrl }) ∧
    (∀ (req : AuthorizeReq) (u : User), req.returnTo = none →
      req.session = true → req.isAuthenticated = true → req.user = some u →
      authorize env req = .sorryRedirect "Bad request: missing parameters.") := by
  refine ⟨?_, ?_, ?_⟩
  · intro req hrt
    cases req with
    | mk ia se rt ho =>
      cases hrt
      simp only [authenticate, jsOr_none, jsOr_some_self]
  · intro req hrt
    cases req with
    | mk ia us rt ho =>
      cases hrt
      simp only [deauthorize, jsOr_none, jsOr_some_self]
  · intro req u hrt hs ha hu
    cases req with
    | mk se ia us rt ho sc ov =>
      cases hrt
      cases hs
      cases ha
      cases hu
      simp only [authorize]
      rw [if_neg (by simp)]
      cases hap : (if jsTruthy ho = true then
          getAuthProviderForHost env (ho.getD "") else none) <;> rfl

/-- C8 witness: the amended theorem applied at concrete requests — login
and deauthorize with absent `returnTo` behave as with the dashboard URL,
and authorize with absent `returnTo` is denied. -/
theorem returnTo_default_amended_witness :
    authenticate baseEnv
        { isAuthenticated := false, session := true, returnTo := none,
          host := some "github.com" } =
      authenticate baseEnv
        { isAuthenticated := false, session := true,
          returnTo := some "https://gitpod.io/workspaces",
          host := some "github.com" } ∧
    deauthorize baseEnv
        { isAuthenticated := true, user := some { id := "user1" },
          returnTo := none, host := some "github.com" } =
      deauthorize baseEnv
        { isAuthenticated := true, user := some { id := "user1" },
          returnTo := some "https://gitpod.io/workspaces",
          host := some "github.com" } ∧
    authorize baseEnv noReturnToReq =
      .sorryRedirect "Bad request: missing parameters." :=
  ⟨(returnTo_default_amended baseEnv).1
      { isAuthenticated := false, session := true, returnTo := none,
        host := some "github.com" } rfl,
    (returnTo_default_amended baseEnv).2.1
      { isAuthenticated := true, user := some { id := "user1" },
        returnTo := none, host := some "github.com" } rfl,
    (returnTo_default_amended baseEnv).2.2 noReturnToReq { id := "user1" }
      rfl rfl rfl rfl⟩

/-- C9: deauthorization requires an authenticated session, otherwise it
terminates with a denial redirect containing "Not authenticated"; when the
external deauthorize call succeeds the response is a redirect to
`returnTo` (default dashboard); when it fails, the error is both forwarded
to the generic error-handling collaborator (`next(error)`) and the
response is a denial redirect carrying the error's message text. -/
theorem deauthorize_reporting (env : Env) (req : DeauthReq) :
    ("Not authenticated. Please login." =
      "Not authenticated" ++ ". Please login.") ∧
    (req.isAuthenticated = false ∨ req.user = none →
      deauthorize env req = .sorryRedirect "Not authenticated. Please login.") ∧
    (∀ u ap, req.isAuthenticated = true → req.user = some u →
      (if jsTruthy req.host then
        getAuthProviderForHost env (req.host.getD "") else none) = some ap →
      (env.deauthorizeCall u.id ap.authProviderId = .ok () →
        deauthorize env req = .redirect (jsOr req.returnTo env.dashboardUrl)) ∧
      (∀ e, env.deauthorizeCall u.id ap.authProviderId = .error e →
        deauthorize env req =
          .failure e ("Failed to disconnect a provider: " ++
            (if e = "" then "unknown reason" else e)))) := by
  cases req with
  | mk ia us rt ho =>
    refine ⟨rfl, ?_, ?_⟩
    · intro hna
      rcases hna with hna | hna
      · cases hna
        rfl
      · cases hna
        cases ia <;> rfl
    · intro u ap ha hu hap
      cases ha
      cases hu
      simp only [deauthorize]
      rw [hap]
      simp only []
      constructor
      · intro hok
        rw [hok]
      · intro e herr
        rw [herr]

/-- C9 witness: the theorem applied at concrete requests — an
unauthenticated deauthorize is denied with the "Not authenticated"
message, a successful call redirects to the dashboard default, and a
failing call both forwards the error and renders its message. -/
theorem deauthorize_reporting_witness :
    deauthorize baseEnv
        { isAuthenticated := false, user := none, returnTo := none,
          host := none } =
      .sorryRedirect "Not authenticated. Please login." ∧
    deauthorize baseEnv
        { isAuthenticated := true, user := some { id := "user1" },
          returnTo := none, host := some "github.com" } =
      .redirect "https://gitpod.io/workspaces" ∧
    deauthorize deauthFailEnv
        { isAuthenticated := true, user := some { id := "user1" },
          returnTo := none, host := some "github.com" } =
      .failure "boom" "Failed to disconnect a provider: boom" :=
  ⟨(deauthorize_reporting baseEnv _).2.1 (Or.inl rfl),
    (((deauthorize_reporting baseEnv _).2.2 { id := "user1" } ghProvider rfl
      rfl (by decide)).1 rfl).trans (by decide),
    (((deauthorize_reporting deauthFailEnv _).2.2 { id := "user1" } ghProvider
      rfl rfl (by decide)).2 "boom" rfl).trans (by decide)⟩
end Gitpod
